import Mathlib

set_option maxRecDepth 100000

/-!
Verification of the schedule-extraction core of
`automated_event_planning_system_TPU` (`src/main.py`).

The verified code is `parse_content` (text extraction dispatch on the
filename extension plus the per-line time-range matcher built on
`re.search` with the pattern
`(\d{1,2}[:.]\d{2})\s*[-–]\s*(\d{1,2}[:.]\d{2})\s*(.*)`)
and the `/export` route (building one calendar event per selected index,
serializing with the `ics` library, then deleting every literal `Z`
character from the serialized text).

Python strings are embedded as Lean `String` / `List Char`.  The regex is
embedded as a specialised matcher, faithful to Python's semantics for this
particular pattern: `re.search` returns the match at the leftmost starting
position; at a given position the quantifier `\d{1,2}` is greedy, `[:.]`
and `[-–]` are character alternatives, `\s*` is greedy, and `(.*)` greedily
captures every remaining character up to (but excluding) a newline.  For
this pattern greedy matching never needs cross-item backtracking:

* if the two-digit-hour alternative of `\d{1,2}[:.]\d{2}` matches at a
  position, the one-digit alternative cannot (the second character would
  have to be both a digit and a separator), and vice versa, so trying the
  two-digit form first and falling back to the one-digit form is exact;
* each `\s*` is followed by an item (`[-–]`, `\d`, `.`) that matches no
  whitespace-or-nothing boundary the quantifier could give back, except the
  final `\s*(.*)` where the greedy split is exactly "maximal whitespace
  run, then the rest", which is what the embedding computes.

`\d` and `\s` are modelled at their ASCII meaning (`Char.isDigit`, the six
ASCII whitespace characters), which coincides with Python on every input
considered here.
-/

/-- ASCII whitespace as matched by the pattern's whitespace class:
space, tab, newline, carriage return, vertical tab, form feed. -/
def isSpaceC (c : Char) : Bool :=
  c = ' ' || c = '\t' || c = '\n' || c = '\r' || c = '\x0b' || c = '\x0c'

/-- The time separator class of the pattern: a colon or a period. -/
def isTimeSep (c : Char) : Bool :=
  c = ':' || c = '.'

/-- The range separator class of the pattern: a hyphen or an en-dash. -/
def isDash (c : Char) : Bool :=
  c = '-' || c = '–'

/-- The character class matched by the dot in the pattern's `(.*)`:
anything except a newline. -/
def notNl (c : Char) : Bool :=
  c != '\n'

/-- Two-digit-hour alternative of the time-token pattern `\d{1,2}[:.]\d{2}`. -/
def matchTime2 : List Char → Option (List Char × List Char)
  | a :: b :: c :: d :: e :: r =>
    if a.isDigit && b.isDigit && isTimeSep c && d.isDigit && e.isDigit then
      some ([a, b, c, d, e], r)
    else
      none
  | _ => none

/-- One-digit-hour alternative of the time-token pattern `\d{1,2}[:.]\d{2}`. -/
def matchTime1 : List Char → Option (List Char × List Char)
  | a :: c :: d :: e :: r =>
    if a.isDigit && isTimeSep c && d.isDigit && e.isDigit then
      some ([a, c, d, e], r)
    else
      none
  | _ => none

/-- The time-token pattern `\d{1,2}[:.]\d{2}` anchored at the head of the
list, greedy in the hour: the two-digit form is tried first.  Returns the
matched token and the unconsumed remainder. -/
def matchTimeTok (l : List Char) : Option (List Char × List Char) :=
  match matchTime2 l with
  | some res => some res
  | none => matchTime1 l

/-- The whole pattern
`(\d{1,2}[:.]\d{2})\s*[-–]\s*(\d{1,2}[:.]\d{2})\s*(.*)`
anchored at the head of the list.  Returns the three capture groups
(start token, end token, trailing text). -/
def matchAt (l : List Char) : Option (List Char × List Char × List Char) :=
  match matchTimeTok l with
  | none => none
  | some (t1, r1) =>
    match r1.dropWhile isSpaceC with
    | [] => none
    | c :: r3 =>
      if isDash c then
        match matchTimeTok (r3.dropWhile isSpaceC) with
        | none => none
        | some (t2, r5) =>
          some (t1, t2, (r5.dropWhile isSpaceC).takeWhile notNl)
      else
        none

/-- Python `re.search`: try the pattern at every starting position from the
left and return the first (leftmost) match's groups. -/
def reSearch : List Char → Option (List Char × List Char × List Char)
  | [] => none
  | c :: tl =>
    match matchAt (c :: tl) with
    | some g => some g
    | none => reSearch tl

/-- Python `str.strip()`: remove leading and trailing whitespace. -/
def pyStrip (l : List Char) : List Char :=
  ((l.dropWhile isSpaceC).reverse.dropWhile isSpaceC).reverse

/-- Python `s.replace('.', ':')` — a single-character replacement is a map. -/
def pyReplaceDotColon (l : List Char) : List Char :=
  l.map (fun c => if c = '.' then ':' else c)

/-- One candidate event as built in `parse_content` (src/main.py lines
69–74): dictionary with keys `title`, `time`, `s_iso`, `e_iso`. -/
structure CandidateEvent where
  title : String
  time : String
  s_iso : String
  e_iso : String
deriving DecidableEq, Repr

/-- The per-line body of the loop in `parse_content` (src/main.py lines
66–74): search the line for the pattern; on a match build the candidate
from the three groups `s`, `e`, `t`:
`{"title": t.strip(), "time": f"{s}-{e}",
  "s_iso": f"{date_str}T{s.replace('.', ':')}:00",
  "e_iso": f"{date_str}T{e.replace('.', ':')}:00"}`. -/
def matchLine (date_str : String) (line : String) : Option CandidateEvent :=
  match reSearch line.data with
  | none => none
  | some (s, e, t) =>
    some
      { title := String.mk (pyStrip t)
        time := String.mk (s ++ '-' :: e)
        s_iso := date_str ++ "T" ++ String.mk (pyReplaceDotColon s) ++ ":00"
        e_iso := date_str ++ "T" ++ String.mk (pyReplaceDotColon e) ++ ":00" }

/-- The accumulation loop of `parse_content` (src/main.py lines 63–75):
`events = []` and then one `events.append(...)` per matching line, in line
order. -/
def match_events (lines : List String) (date_str : String) : List CandidateEvent :=
  lines.foldl
    (fun acc line =>
      match matchLine date_str line with
      | some ev => acc ++ [ev]
      | none => acc)
    []

/-- Python `text.split('\n')`: split on every newline, keeping empty
pieces; the empty string yields one empty piece. -/
def splitNl : List Char → List (List Char)
  | [] => [[]]
  | c :: tl =>
    let r := splitNl tl
    if c = '\n' then
      [] :: r
    else
      match r with
      | h :: t => (c :: h) :: t
      | [] => [[c]]

/-- Test whether the first list appears at the head of the second. -/
def leadsWith : List Char → List Char → Bool
  | [], _ => true
  | _ :: _, [] => false
  | a :: as, b :: bs => a = b && leadsWith as bs

/-- Python `str.endswith(suffix)`. -/
def pyEndsWith (s suffix : String) : Bool :=
  leadsWith suffix.data.reverse s.data.reverse

/-- The extraction dispatch of `parse_content` (src/main.py lines 54–61):
a `.pdf` filename yields the text the PDF library extracts, a `.html`
filename yields the text the HTML library extracts, any other filename
yields the empty string.  The outputs of the two external extraction
libraries on the uploaded bytes are the parameters `pdfText` and
`htmlText`. -/
def extract_text (pdfText htmlText filename : String) : String :=
  if pyEndsWith filename ".pdf" then pdfText
  else if pyEndsWith filename ".html" then htmlText
  else ""

/-- `parse_content(file_bytes, filename, date_str)` (src/main.py lines
54–75): extract text by extension, split it into lines, and run the
matching loop. -/
def parse_content (pdfText htmlText filename date_str : String) : List CandidateEvent :=
  match_events ((splitNl (extract_text pdfText htmlText filename).data).map String.mk) date_str

/-- A time token of the pattern taken in isolation: 1–2 digits, a colon or
period, 2 digits. -/
def isTimeTok : List Char → Bool
  | [a, b, c, d] => a.isDigit && isTimeSep b && c.isDigit && d.isDigit
  | [a, b, c, d, e] => a.isDigit && b.isDigit && isTimeSep c && d.isDigit && e.isDigit
  | _ => false

/-- A naive local timestamp with no timezone, the value built by
`datetime.fromisoformat` at src/main.py lines 139–140. -/
structure NaiveDT where
  year : Nat
  month : Nat
  day : Nat
  hour : Nat
  minute : Nat
  second : Nat
deriving DecidableEq, Repr

/-- Numeric value of a decimal digit character. -/
def digitVal (c : Char) : Nat :=
  c.toNat - '0'.toNat

/-- Gregorian leap-year test. -/
def isLeap (y : Nat) : Bool :=
  (y % 4 = 0 && y % 100 ≠ 0) || y % 400 = 0

/-- Number of days of a month in the Gregorian calendar. -/
def daysInMonth (y m : Nat) : Nat :=
  if m = 2 then (if isLeap y then 29 else 28)
  else if m = 4 || m = 6 || m = 9 || m = 11 then 30
  else 31

/-- Modelled from the spec: Python's `datetime.fromisoformat`, the
external standard-library parser the export route applies to the
caller-supplied `starts[i]` / `ends[i]` strings (src/main.py lines
139–140); the spec calls these "selection time strings that don't parse
as valid timestamps" when rejected.  The model covers the
`YYYY-MM-DDTHH:MM:SS` shape — the only shape the candidate pipeline
produces — and enforces the calendar and clock ranges Python enforces;
`none` stands for the `ValueError` the real parser raises. -/
def fromisoformat (s : String) : Option NaiveDT :=
  match s.data with
  | [y1, y2, y3, y4, c1, mo1, mo2, c2, d1, d2, c3, h1, h2, c4, mi1, mi2, c5, s1, s2] =>
    if c1 = '-' && c2 = '-' && c3 = 'T' && c4 = ':' && c5 = ':' &&
        y1.isDigit && y2.isDigit && y3.isDigit && y4.isDigit &&
        mo1.isDigit && mo2.isDigit && d1.isDigit && d2.isDigit &&
        h1.isDigit && h2.isDigit && mi1.isDigit && mi2.isDigit &&
        s1.isDigit && s2.isDigit then
      let y := 1000 * digitVal y1 + 100 * digitVal y2 + 10 * digitVal y3 + digitVal y4
      let mo := 10 * digitVal mo1 + digitVal mo2
      let d := 10 * digitVal d1 + digitVal d2
      let h := 10 * digitVal h1 + digitVal h2
      let mi := 10 * digitVal mi1 + digitVal mi2
      let sec := 10 * digitVal s1 + digitVal s2
      if 1 ≤ y && 1 ≤ mo && mo ≤ 12 && 1 ≤ d && d ≤ daysInMonth y mo &&
          h ≤ 23 && mi ≤ 59 && sec ≤ 59 then
        some ⟨y, mo, d, h, mi, sec⟩
      else
        none
    else
      none
  | _ => none

/-- Left-pad a number to two digits. -/
def pad2 (n : Nat) : String :=
  if n < 10 then "0" ++ toString n else toString n

/-- Left-pad a number to four digits. -/
def pad4 (n : Nat) : String :=
  if n < 10 then "000" ++ toString n
  else if n < 100 then "00" ++ toString n
  else if n < 1000 then "0" ++ toString n
  else toString n

/-- Basic-format timestamp as the calendar serializer prints instants:
`YYYYMMDDTHHMMSS`. -/
def fmtICS (dt : NaiveDT) : String :=
  pad4 dt.year ++ pad2 dt.month ++ pad2 dt.day ++ "T" ++
    pad2 dt.hour ++ pad2 dt.minute ++ pad2 dt.second

/-- Modelled from the spec: one serialized calendar entry of the external
`ics` library (whose code is not part of this repository) — a `VEVENT`
block carrying the event's name and its begin/end instants, with the UTC
suffix `Z` the spec says "the underlying serializer attaches" to each
timestamp. -/
def serializeEvent (name : String) (b e : NaiveDT) : String :=
  "BEGIN:VEVENT\r\nDTSTART:" ++ fmtICS b ++ "Z\r\nDTEND:" ++ fmtICS e ++
    "Z\r\nSUMMARY:" ++ name ++ "\r\nEND:VEVENT\r\n"

/-- Modelled from the spec: the whole-calendar serialization
`Calendar.serialize()` of the external `ics` library — the "canonical
calendar-interchange text representation": a `VCALENDAR` wrapper with
version and producer lines around one entry per event, in input order. -/
def serializeCalendar (evs : List (String × NaiveDT × NaiveDT)) : String :=
  "BEGIN:VCALENDAR\r\nVERSION:2.0\r\nPRODID:ics.py - http://git.io/lLljaA\r\n" ++
    String.join (evs.map (fun p => serializeEvent p.1 p.2.1 p.2.2)) ++
    "END:VCALENDAR"

/-- Python `ics_data.replace("Z", "")` (src/main.py line 155): deleting
every occurrence of the single character `Z` is a filter. -/
def stripZ (s : String) : String :=
  String.mk (s.data.filter (fun c => c != 'Z'))

/-- The event-building loop of the `/export` route (src/main.py lines
138–146): for each selected index, look up the submitted title and
start/end strings, parse the two timestamps, and collect
`(title, start, end)` in selection order.  `none` models the exception
that aborts the route (index error or timestamp `ValueError`). -/
def buildEvents (titles starts ends : List String) : List Nat → Option (List (String × NaiveDT × NaiveDT))
  | [] => some []
  | i :: is =>
    match titles.get? i, starts.get? i, ends.get? i with
    | some t, some sIso, some eIso =>
      match fromisoformat sIso, fromisoformat eIso, buildEvents titles starts ends is with
      | some b, some e, some rest => some ((t, b, e) :: rest)
      | _, _, _ => none
    | _, _, _ => none

/-- The serialization part of the `/export` route (src/main.py lines
136–157): build one calendar event per selected index, serialize the
calendar, and delete every literal `Z` from the serialized text.  The
result is the byte blob written to the `.ics` download. -/
def export_ics (titles starts ends : List String) (selected : List Nat) : Option String :=
  (buildEvents titles starts ends selected).map
    (fun evs => stripZ (serializeCalendar evs))

/-- Number of occurrences of the first list as a contiguous sublist of the
second (all starting positions counted). -/
def countSub (needle : List Char) : List Char → Nat
  | [] => 0
  | c :: tl => (if leadsWith needle (c :: tl) then 1 else 0) + countSub needle tl

/-- Number of `VEVENT` blocks of a serialized calendar. -/
def countVEVENT (s : String) : Nat :=
  countSub "BEGIN:VEVENT".data s.data

/-- Whether a string occurs as a contiguous substring of another. -/
def hasSub (needle s : String) : Bool :=
  decide (0 < countSub needle.data s.data)

/-- Structural validity of a calendar document: it is one `VCALENDAR`
wrapper, opening with `BEGIN:VCALENDAR` and closing with
`END:VCALENDAR`. -/
def validCal (s : String) : Bool :=
  leadsWith "BEGIN:VCALENDAR".data s.data &&
    leadsWith "END:VCALENDAR".data.reverse s.data.reverse

/-- Minutes past midnight denoted by a matched time token (used only to
compare the clock values of two tokens). -/
def tokMinutes : List Char → Nat
  | [a, _, c, d] => 60 * digitVal a + (10 * digitVal c + digitVal d)
  | [a, b, _, d, e] => 60 * (10 * digitVal a + digitVal b) + (10 * digitVal d + digitVal e)
  | _ => 0

/-- A character of the pattern's separator class is not a digit. -/
lemma sep_not_digit {c : Char} (h : isTimeSep c = true) : c.isDigit = false := by
  simp only [isTimeSep, Bool.or_eq_true, decide_eq_true_eq] at h
  rcases h with h | h <;> subst h <;> decide

/-- A hyphen or en-dash is not whitespace. -/
lemma dash_not_space {c : Char} (h : isDash c = true) : isSpaceC c = false := by
  simp only [isDash, Bool.or_eq_true, decide_eq_true_eq] at h
  rcases h with h | h <;> subst h <;> decide

/-- A digit is not whitespace. -/
lemma digit_not_space {c : Char} (h : c.isDigit = true) : isSpaceC c = false := by
  cases hs : isSpaceC c with
  | false => rfl
  | true =>
    exfalso
    simp only [isSpaceC, Bool.or_eq_true, decide_eq_true_eq, or_assoc] at hs
    rcases hs with h' | h' | h' | h' | h' | h' <;> subst h' <;> exact absurd h (by decide)

/-- `takeWhile` keeps a list every element of which satisfies the predicate. -/
lemma all_takeWhile {p : Char → Bool} : ∀ l : List Char, l.all p = true → l.takeWhile p = l
  | [], _ => rfl
  | c :: tl, h => by
    simp only [List.all_cons, Bool.and_eq_true] at h
    simp [List.takeWhile_cons, h.1, all_takeWhile tl h.2]

/-- `dropWhile` with any predicate preserves an `all` fact. -/
lemma all_dropWhile {p q : Char → Bool} : ∀ l : List Char, l.all p = true → (l.dropWhile q).all p = true
  | [], _ => rfl
  | c :: tl, h => by
    simp only [List.all_cons, Bool.and_eq_true] at h
    cases hq : q c with
    | true => simpa [List.dropWhile_cons, hq] using all_dropWhile tl h.2
    | false => simp [List.dropWhile_cons, hq, h.1, h.2]

/-- Dropping whitespace from the concatenation of an all-whitespace list
and a tail drops the whole whitespace list first. -/
lemma dropWhile_all_append {p : Char → Bool} :
    ∀ ws l : List Char, ws.all p = true → (ws ++ l).dropWhile p = l.dropWhile p
  | [], _, _ => rfl
  | c :: ws, l, h => by
    simp only [List.all_cons, Bool.and_eq_true] at h
    simp [List.dropWhile_cons, h.1, dropWhile_all_append ws l h.2]

/-- `dropWhile` does nothing when the head already fails the predicate. -/
lemma dropWhile_cons_false {p : Char → Bool} {c : Char} {tl : List Char} (h : p c = false) :
    (c :: tl).dropWhile p = c :: tl := by
  simp [List.dropWhile_cons, h]

/-- `dropWhile` is idempotent. -/
lemma dropWhile_idem {p : Char → Bool} : ∀ l : List Char, (l.dropWhile p).dropWhile p = l.dropWhile p
  | [] => rfl
  | c :: tl => by
    cases hc : p c with
    | true => simp [List.dropWhile_cons, hc, dropWhile_idem tl]
    | false => simp [List.dropWhile_cons, hc]

/-- Stripping after a leading-whitespace drop is plain stripping. -/
lemma pyStrip_dropWhile (l : List Char) : pyStrip (l.dropWhile isSpaceC) = pyStrip l := by
  unfold pyStrip
  rw [dropWhile_idem]

/-- A time token starts with a digit. -/
lemma timeTok_head {t : List Char} (h : isTimeTok t = true) :
    ∃ a t', t = a :: t' ∧ a.isDigit = true := by
  rcases t with _ | ⟨a, _ | ⟨b, _ | ⟨c, _ | ⟨d, _ | ⟨e, _ | ⟨f, t⟩⟩⟩⟩⟩⟩ <;>
    simp only [isTimeTok, Bool.and_eq_true, and_assoc] at h
  all_goals first
    | exact Bool.noConfusion h
    | exact ⟨_, _, rfl, h.1⟩

/-- The anchored time-token matcher consumes exactly a time token placed at
the head of its input, whatever follows it.  The greedy two-digit-hour
alternative is exact here: for a one-digit-hour token the second character
is the separator, which is not a digit, so the two-digit alternative cannot
fire. -/
lemma matchTimeTok_form {t : List Char} (r : List Char) (h : isTimeTok t = true) :
    matchTimeTok (t ++ r) = some (t, r) := by
  rcases t with _ | ⟨a, _ | ⟨b, _ | ⟨c, _ | ⟨d, _ | ⟨e, _ | ⟨f, t⟩⟩⟩⟩⟩⟩ <;>
    simp only [isTimeTok, Bool.and_eq_true, and_assoc] at h
  all_goals try exact Bool.noConfusion h
  · -- one-digit hour: [a, b, c, d] with b the separator
    obtain ⟨ha, hb, hc, hd⟩ := h
    have hb' := sep_not_digit hb
    cases r with
    | nil => simp [matchTimeTok, matchTime2, matchTime1, ha, hb, hc, hd]
    | cons x r' => simp [matchTimeTok, matchTime2, matchTime1, ha, hb, hc, hd, hb']
  · -- two-digit hour: [a, b, c, d, e]
    obtain ⟨ha, hb, hc, hd, he⟩ := h
    simp [matchTimeTok, matchTime2, ha, hb, hc, hd, he]

/-- The anchored full-pattern matcher on a line that begins with a
well-formed time range: it captures the two tokens and the text after the
second token (with leading whitespace dropped and the capture stopped at a
newline). -/
lemma matchAt_form (t1 t2 ws1 ws2 tail : List Char) (d : Char)
    (h1 : isTimeTok t1 = true) (h2 : isTimeTok t2 = true)
    (hw1 : ws1.all isSpaceC = true) (hw2 : ws2.all isSpaceC = true)
    (hd : isDash d = true) :
    matchAt (t1 ++ (ws1 ++ (d :: (ws2 ++ (t2 ++ tail))))) =
      some (t1, t2, (tail.dropWhile isSpaceC).takeWhile notNl) := by
  obtain ⟨a, t2', ht2, ha⟩ := timeTok_head h2
  have hmt1 := matchTimeTok_form (ws1 ++ (d :: (ws2 ++ (t2 ++ tail)))) h1
  have hmt2 := matchTimeTok_form tail h2
  have hdw1 : (ws1 ++ (d :: (ws2 ++ (t2 ++ tail)))).dropWhile isSpaceC
      = d :: (ws2 ++ (t2 ++ tail)) := by
    rw [dropWhile_all_append _ _ hw1, dropWhile_cons_false (dash_not_space hd)]
  have hdw2 : (ws2 ++ (t2 ++ tail)).dropWhile isSpaceC = t2 ++ tail := by
    rw [dropWhile_all_append _ _ hw2, ht2, List.cons_append,
      dropWhile_cons_false (digit_not_space ha)]
  simp only [matchAt, hmt1, hdw1, hdw2, hmt2, hd, if_true]

/-- A successful anchored match at the head of the line is the search
result. -/
lemma reSearch_of_matchAt {l : List Char} {g : List Char × List Char × List Char}
    (h : matchAt l = some g) : reSearch l = some g := by
  cases l with
  | nil =>
    rw [show matchAt ([] : List Char) = none from rfl] at h
    exact Option.noConfusion h
  | cons c tl => simp [reSearch, h]

/-- The search skips any block of positions at which the anchored matcher
fails. -/
lemma reSearch_skip :
    ∀ (pre l : List Char), (∀ j, j < pre.length → matchAt (List.drop j (pre ++ l)) = none) →
      reSearch (pre ++ l) = reSearch l
  | [], _, _ => rfl
  | c :: pre, l, h => by
    have h0 := h 0 (by simp)
    rw [List.drop_zero] at h0
    rw [List.cons_append] at h0 ⊢
    simp only [reSearch, h0]
    exact reSearch_skip pre l (fun j hj => by
      have hs := h (j + 1) (by simpa using Nat.succ_lt_succ hj)
      rwa [List.cons_append, List.drop_succ_cons] at hs)

/-- The accumulating loop of the matcher is an order-preserving filtered
projection of the lines. -/
lemma match_events_foldl (date : String) :
    ∀ (lines : List String) (acc : List CandidateEvent),
      lines.foldl
        (fun acc line =>
          match matchLine date line with
          | some ev => acc ++ [ev]
          | none => acc)
        acc = acc ++ lines.filterMap (matchLine date)
  | [], acc => by simp
  | line :: ls, acc => by
    cases h : matchLine date line with
    | some ev =>
      simp only [List.foldl_cons, h, List.filterMap_cons, match_events_foldl date ls (acc ++ [ev])]
      simp
    | none =>
      simp only [List.foldl_cons, h, List.filterMap_cons, match_events_foldl date ls acc]

/-- The matcher as a whole is `filterMap` over the lines. -/
lemma match_events_filterMap (lines : List String) (date : String) :
    match_events lines date = lines.filterMap (matchLine date) := by
  simpa using match_events_foldl date lines []

/-- C1: for every line of the form time-range-then-text — a 1–2-digit,
separator, 2-digit time token, a hyphen or en-dash with optional
surrounding whitespace, a second such token, then the rest of the line —
the matcher emits exactly one candidate for the line, whose `time` label
is the two original tokens joined by a hyphen, whose `s_iso`/`e_iso` are
the reference date, `T`, the token with any period rewritten to a colon,
and `:00`, and whose title is the remainder after the second token,
trimmed.  (The no-newline hypothesis on the remainder holds for every line
the pipeline produces, since lines are obtained by splitting on newlines.) -/
theorem matcher_wellformed_line_extracts_candidate
    (date : String) (t1 t2 ws1 ws2 rest : List Char) (d : Char)
    (h1 : isTimeTok t1 = true) (h2 : isTimeTok t2 = true)
    (hw1 : ws1.all isSpaceC = true) (hw2 : ws2.all isSpaceC = true)
    (hd : isDash d = true) (hnl : rest.all notNl = true) :
    matchLine date (String.mk (t1 ++ (ws1 ++ (d :: (ws2 ++ (t2 ++ rest)))))) =
      some
        { title := String.mk (pyStrip rest)
          time := String.mk (t1 ++ '-' :: t2)
          s_iso := date ++ "T" ++ String.mk (pyReplaceDotColon t1) ++ ":00"
          e_iso := date ++ "T" ++ String.mk (pyReplaceDotColon t2) ++ ":00" } := by
  have hsearch := reSearch_of_matchAt (matchAt_form t1 t2 ws1 ws2 rest d h1 h2 hw1 hw2 hd)
  have hg3 : (rest.dropWhile isSpaceC).takeWhile notNl = rest.dropWhile isSpaceC :=
    all_takeWhile _ (all_dropWhile _ hnl)
  simp only [matchLine, hsearch, hg3, pyStrip_dropWhile]

/-- Witness for C1 at the spec's two concrete scenarios. -/
theorem matcher_wellformed_line_extracts_candidate_witness :
    (isTimeTok "09:00".data = true ∧ isTimeTok "10:30".data = true ∧
      isDash '-' = true ∧ (" Math Lecture".data).all notNl = true) ∧
    matchLine "2024-05-01" "09:00-10:30 Math Lecture" =
      some ⟨"Math Lecture", "09:00-10:30", "2024-05-01T09:00:00", "2024-05-01T10:30:00"⟩ ∧
    matchLine "2024-05-01" "14.00 – 15.00 Lab Session" =
      some ⟨"Lab Session", "14.00-15.00", "2024-05-01T14:00:00", "2024-05-01T15:00:00"⟩ :=
  ⟨⟨by decide, by decide, by decide, by decide⟩,
    (matcher_wellformed_line_extracts_candidate "2024-05-01" "09:00".data "10:30".data
      [] [] " Math Lecture".data '-' (by decide) (by decide) (by decide) (by decide)
      (by decide) (by decide)).trans (by decide),
    (matcher_wellformed_line_extracts_candidate "2024-05-01" "14.00".data "15.00".data
      " ".data " ".data " Lab Session".data '–' (by decide) (by decide) (by decide) (by decide)
      (by decide) (by decide)).trans (by decide)⟩

/-- C3: a line holding more than one time-range substring — here written
as a prefix before the leftmost occurrence (the hypothesis `hpre` says the
anchored pattern matches at no position inside the prefix, i.e. the shown
occurrence is the leftmost) followed by a first occurrence and then a tail
that itself holds a second time-range occurrence — still yields exactly
one candidate, bound to the leftmost occurrence; the title is everything
after that occurrence's second token up to the end of the line, so the
later time-range text lands inside the title. -/
theorem matcher_first_occurrence_wins
    (date : String) (pre t1 ws1 ws2 t2 tail mid u1 wsA wsB u2 rest2 : List Char) (d dA : Char)
    (h1 : isTimeTok t1 = true) (h2 : isTimeTok t2 = true)
    (hw1 : ws1.all isSpaceC = true) (hw2 : ws2.all isSpaceC = true)
    (hd : isDash d = true)
    (_htail : tail = mid ++ (u1 ++ (wsA ++ (dA :: (wsB ++ (u2 ++ rest2))))))
    (_hu1 : isTimeTok u1 = true) (_hu2 : isTimeTok u2 = true)
    (_hwA : wsA.all isSpaceC = true) (_hwB : wsB.all isSpaceC = true)
    (_hdA : isDash dA = true)
    (hnl : tail.all notNl = true)
    (hpre : ∀ j, j < pre.length →
      matchAt (List.drop j (pre ++ (t1 ++ (ws1 ++ (d :: (ws2 ++ (t2 ++ tail))))))) = none) :
    matchLine date (String.mk (pre ++ (t1 ++ (ws1 ++ (d :: (ws2 ++ (t2 ++ tail))))))) =
      some
        { title := String.mk (pyStrip tail)
          time := String.mk (t1 ++ '-' :: t2)
          s_iso := date ++ "T" ++ String.mk (pyReplaceDotColon t1) ++ ":00"
          e_iso := date ++ "T" ++ String.mk (pyReplaceDotColon t2) ++ ":00" } := by
  have hskip := reSearch_skip pre (t1 ++ (ws1 ++ (d :: (ws2 ++ (t2 ++ tail))))) hpre
  have hsearch := reSearch_of_matchAt (matchAt_form t1 t2 ws1 ws2 tail d h1 h2 hw1 hw2 hd)
  have hg3 : (tail.dropWhile isSpaceC).takeWhile notNl = tail.dropWhile isSpaceC :=
    all_takeWhile _ (all_dropWhile _ hnl)
  simp only [matchLine, hskip, hsearch, hg3, pyStrip_dropWhile]

/-- Witness for C3: a prefix, then `09:00-10:30`, then a second time range
`11:00-12:00` that ends up inside the title. -/
theorem matcher_first_occurrence_wins_witness :
    (∀ j, j < ("x ".data).length →
      matchAt (List.drop j "x 09:00-10:30 also 11:00-12:00 Gym".data) = none) ∧
    matchLine "2024-05-01" "x 09:00-10:30 also 11:00-12:00 Gym" =
      some ⟨"also 11:00-12:00 Gym", "09:00-10:30",
        "2024-05-01T09:00:00", "2024-05-01T10:30:00"⟩ :=
  ⟨by decide,
    (matcher_first_occurrence_wins "2024-05-01" "x ".data "09:00".data [] [] "10:30".data
      " also 11:00-12:00 Gym".data " also ".data "11:00".data [] [] "12:00".data " Gym".data
      '-' '-' (by decide) (by decide) (by decide) (by decide) (by decide) (by decide)
      (by decide) (by decide) (by decide) (by decide) (by decide) (by decide)
      (by decide)).trans (by decide)⟩

/-- C4: a line on which the pattern search fails contributes no candidate:
deleting such a line from the line sequence leaves the result of the
matching loop unchanged, wherever the line stood. -/
theorem matcher_skips_nonmatching_lines
    (date line : String) (pre post : List String)
    (h : reSearch line.data = none) :
    match_events (pre ++ line :: post) date = match_events (pre ++ post) date := by
  have hnone : matchLine date line = none := by simp only [matchLine, h]
  simp [match_events_filterMap, List.filterMap_append, List.filterMap_cons, hnone]

/-- Witness for C4 at the spec's scenario: `"Lunch Break"` contributes no
candidate. -/
theorem matcher_skips_nonmatching_lines_witness :
    reSearch "Lunch Break".data = none ∧
    match_events ["09:00-10:30 Math", "Lunch Break", "11:00-12:00 Lab"] "2024-05-01" =
      match_events ["09:00-10:30 Math", "11:00-12:00 Lab"] "2024-05-01" :=
  ⟨by decide,
    matcher_skips_nonmatching_lines "2024-05-01" "Lunch Break"
      ["09:00-10:30 Math"] ["11:00-12:00 Lab"] (by decide)⟩

/-- C5: extraction is order-preserving — for every input document (its two
possible extracted texts) and date, the candidate list is exactly the
`filterMap` of the per-line matcher over the extracted lines in their
original order: no deduplication and no reordering by time. -/
theorem matcher_order_preserving (pdfText htmlText filename date : String) :
    parse_content pdfText htmlText filename date =
      ((splitNl (extract_text pdfText htmlText filename).data).map String.mk).filterMap
        (matchLine date) := by
  simp only [parse_content, match_events_filterMap]

/-- C6: a filename ending in neither `.pdf` nor `.html` yields the empty
candidate list as an ordinary value, regardless of the document bytes
(the extracted texts `pdfText`/`htmlText` are ignored). -/
theorem unsupported_extension_yields_no_events
    (pdfText htmlText filename date : String)
    (h1 : pyEndsWith filename ".pdf" = false)
    (h2 : pyEndsWith filename ".html" = false) :
    parse_content pdfText htmlText filename date = [] := by
  have htext : extract_text pdfText htmlText filename = "" := by
    simp [extract_text, h1, h2]
  rw [parse_content, htext]
  rw [show (splitNl ("" : String).data).map String.mk = [""] from rfl]
  rw [match_events_filterMap]
  simp [matchLine, reSearch]

/-- Witness for C6: a `.txt` upload whose bytes would extract to lines
full of time ranges still yields no events. -/
theorem unsupported_extension_yields_no_events_witness :
    pyEndsWith "schedule.txt" ".pdf" = false ∧
    pyEndsWith "schedule.txt" ".html" = false ∧
    parse_content "10:00-11:00 X" "09:00-10:00 Y" "schedule.txt" "2024-05-01" = [] :=
  ⟨by decide, by decide,
    unsupported_extension_yields_no_events "10:00-11:00 X" "09:00-10:00 Y" "schedule.txt"
      "2024-05-01" (by decide) (by decide)⟩

/-- C8: the extraction/matching pipeline is deterministic — it is a pure
function of the extracted texts, the filename and the reference date (the
source reads no mutable state in `parse_content`), so two runs on equal
inputs return equal candidate sequences. -/
theorem parse_content_deterministic
    (pdf1 html1 fn1 date1 pdf2 html2 fn2 date2 : String)
    (hp : pdf1 = pdf2) (hh : html1 = html2) (hf : fn1 = fn2) (hd : date1 = date2) :
    parse_content pdf1 html1 fn1 date1 = parse_content pdf2 html2 fn2 date2 := by
  subst hp; subst hh; subst hf; subst hd; rfl

/-- Witness for C8 at a concrete document and date. -/
theorem parse_content_deterministic_witness :
    ("09:00-10:30 Math" : String) = "09:00-10:30 Math" ∧
    ("" : String) = "" ∧ ("plan.pdf" : String) = "plan.pdf" ∧
    ("2024-05-01" : String) = "2024-05-01" ∧
    parse_content "09:00-10:30 Math" "" "plan.pdf" "2024-05-01" =
      parse_content "09:00-10:30 Math" "" "plan.pdf" "2024-05-01" :=
  ⟨rfl, rfl, rfl, rfl,
    parse_content_deterministic "09:00-10:30 Math" "" "plan.pdf" "2024-05-01"
      "09:00-10:30 Math" "" "plan.pdf" "2024-05-01" rfl rfl rfl rfl⟩

/-- C9: every emitted candidate carries the same reference date in both
`s_iso` and `e_iso`; in particular the line `"23:00-01:00 Party"` is
neither rejected nor rolled over to the next day — its candidate is
emitted with both endpoints on the reference date, the end clock
(01:00, 60 minutes past midnight) earlier than the start clock (23:00,
1380 minutes past midnight). -/
theorem same_date_both_endpoints_no_rollover
    (date line : String) (ev : CandidateEvent)
    (h : matchLine date line = some ev) :
    (∃ s e : String, ev.s_iso = date ++ "T" ++ s ++ ":00" ∧ ev.e_iso = date ++ "T" ++ e ++ ":00") ∧
    matchLine date "23:00-01:00 Party" =
      some
        { title := "Party", time := "23:00-01:00",
          s_iso := date ++ "T" ++ "23:00" ++ ":00",
          e_iso := date ++ "T" ++ "01:00" ++ ":00" } ∧
    tokMinutes "01:00".data < tokMinutes "23:00".data := by
  refine ⟨?_, ?_, by decide⟩
  · cases hs : reSearch line.data with
    | none => rw [matchLine, hs] at h; exact Option.noConfusion h
    | some g =>
      obtain ⟨s, e, t⟩ := g
      rw [matchLine, hs, Option.some.injEq] at h
      subst h
      exact ⟨String.mk (pyReplaceDotColon s), String.mk (pyReplaceDotColon e), rfl, rfl⟩
  · have hsearch : reSearch ("23:00-01:00 Party" : String).data =
        some ("23:00".data, "01:00".data, "Party".data) := by decide
    rw [matchLine, hsearch]
    dsimp only
    rw [show String.mk (pyStrip "Party".data) = "Party" from by decide,
      show String.mk ("23:00".data ++ '-' :: "01:00".data) = "23:00-01:00" from by decide,
      show String.mk (pyReplaceDotColon "23:00".data) = "23:00" from by decide,
      show String.mk (pyReplaceDotColon "01:00".data) = "01:00" from by decide]

/-- Witness for C9 at a concrete matched line. -/
theorem same_date_both_endpoints_no_rollover_witness :
    matchLine "2024-05-01" "09:00-10:30 Math Lecture" =
      some ⟨"Math Lecture", "09:00-10:30", "2024-05-01T09:00:00", "2024-05-01T10:30:00"⟩ ∧
    ((∃ s e : String,
        ("2024-05-01T09:00:00" : String) = "2024-05-01" ++ "T" ++ s ++ ":00" ∧
        ("2024-05-01T10:30:00" : String) = "2024-05-01" ++ "T" ++ e ++ ":00") ∧
      matchLine "2024-05-01" "23:00-01:00 Party" =
        some
          { title := "Party", time := "23:00-01:00",
            s_iso := "2024-05-01" ++ "T" ++ "23:00" ++ ":00",
            e_iso := "2024-05-01" ++ "T" ++ "01:00" ++ ":00" } ∧
      tokMinutes "01:00".data < tokMinutes "23:00".data) :=
  ⟨by decide,
    same_date_both_endpoints_no_rollover "2024-05-01" "09:00-10:30 Math Lecture"
      ⟨"Math Lecture", "09:00-10:30", "2024-05-01T09:00:00", "2024-05-01T10:30:00"⟩
      (by decide)⟩

/-- C10: the matcher checks only the digit shape of time tokens, never
their clock value — the line `"27:99-28.77 Impossible"` still yields a
candidate, whose `s_iso`/`e_iso` are not valid timestamps (the modelled
`datetime.fromisoformat` rejects both, as hour 27 and 28 and minute 99
and 77 are out of range). -/
theorem matcher_accepts_out_of_range_times :
    matchLine "2024-05-01" "27:99-28.77 Impossible" =
      some ⟨"Impossible", "27:99-28.77", "2024-05-01T27:99:00", "2024-05-01T28:77:00"⟩ ∧
    fromisoformat "2024-05-01T27:99:00" = none ∧
    fromisoformat "2024-05-01T28:77:00" = none := by
  refine ⟨by decide, by decide, by decide⟩

/-- C2 (code bug): the export route deletes every literal `Z` from the
serialized calendar, including the `Z` of an event title.  At the failing
input — one selected event titled `"Zumba"` — the output holds exactly one
`VEVENT` block and no `Z` at all (so no UTC designator survives), but the
name line reads `SUMMARY:umba` instead of carrying the title verbatim. -/
theorem export_mangles_title_with_Z :
    (export_ics ["Zumba"] ["2024-05-01T09:00:00"] ["2024-05-01T10:00:00"] [0]).map countVEVENT =
      some 1 ∧
    (export_ics ["Zumba"] ["2024-05-01T09:00:00"] ["2024-05-01T10:00:00"] [0]).map
      (hasSub "SUMMARY:umba") = some true ∧
    (export_ics ["Zumba"] ["2024-05-01T09:00:00"] ["2024-05-01T10:00:00"] [0]).map
      (hasSub "Zumba") = some false ∧
    (export_ics ["Zumba"] ["2024-05-01T09:00:00"] ["2024-05-01T10:00:00"] [0]).map
      (hasSub "Z") = some false := by
  refine ⟨by decide, by decide, by decide, by decide⟩

/-- C7: serializing an empty selection succeeds as an ordinary value and
yields a structurally valid calendar document with zero `VEVENT` blocks,
whatever the submitted title/time lists were. -/
theorem export_empty_selection_valid (titles starts ends : List String) :
    export_ics titles starts ends [] =
      some "BEGIN:VCALENDAR\r\nVERSION:2.0\r\nPRODID:ics.py - http://git.io/lLljaA\r\nEND:VCALENDAR" ∧
    validCal "BEGIN:VCALENDAR\r\nVERSION:2.0\r\nPRODID:ics.py - http://git.io/lLljaA\r\nEND:VCALENDAR" = true ∧
    countVEVENT "BEGIN:VCALENDAR\r\nVERSION:2.0\r\nPRODID:ics.py - http://git.io/lLljaA\r\nEND:VCALENDAR" = 0 :=
  ⟨rfl, by decide, by decide⟩
